import Mathlib

/-!
Verification development for the nobpp single-header build tool (nobpp.hpp,
final revision of the header: the one declaring `latestInput`/`earliestOutput`
staleness tracking, `Init`, `ConsumeFlags`, `AddEscapes`/`RemoveEscapes`,
`CompileDirectory` and the backend translation operators).

Timestamps: the source stores modification times as `float` seconds
(`std::chrono::duration<float>(last_write_time(p).time_since_epoch()).count()`),
with `FLT_MAX` as the "missing input / no output yet" sentinel.  We model the
value space of finite floats by rationals, with `fltMax` the exact value of
`FLT_MAX`; well-formed filesystems carry modification times in `[0, fltMax]`
(nonnegative finite float values).
-/

namespace Nobpp

/-- `FLT_MAX`, the largest finite single-precision float:
`(2 - 2⁻²³)·2¹²⁷ = 2¹²⁸ - 2¹⁰⁴`, written as a literal so that kernel
reduction works on it. -/
def fltMax : Rat := 340282346638528859811704183484516925440

/-- A file as the staleness machinery observes it: a modification time plus an
abstract content tag used to track which bytes survive rename/remove. -/
structure File where
  mtime : Rat
  content : Nat
deriving DecidableEq, Repr

/-- Filesystem model: a partial map from path strings to files. -/
def FS : Type := String → Option File

/-- Well-formed filesystems: modification times are nonnegative finite float
values (so in `[0, fltMax]` after the source's conversion to `float`). -/
def FS.WF (fs : FS) : Prop := ∀ p f, fs p = some f → 0 ≤ f.mtime ∧ f.mtime ≤ fltMax

/-- `std::filesystem::remove`. -/
def FS.removeFile (fs : FS) (p : String) : FS :=
  fun q => if q = p then none else fs q

/-- `std::filesystem::rename src dst` (an existing `dst` is overwritten). -/
def FS.renameFile (fs : FS) (src dst : String) : FS :=
  fun q => if q = dst then fs src else if q = src then none else fs q

/-- `struct Command { std::string text; std::filesystem::path path;
float latestInput = 1.f; float earliestOutput = FLT_MAX; ... }`. -/
structure Command where
  text : String
  path : String
  latestInput : Rat
  earliestOutput : Rat
deriving DecidableEq, Repr

/-- A freshly constructed `Command` with the source's default member
initializers `latestInput = 1.f` and `earliestOutput = FLT_MAX`. -/
def Command.init (text path : String) : Command :=
  ⟨text, path, 1, fltMax⟩

/-- `Command::UpdateInputTime(file, skipOnFail)`: raise `latestInput` to the
file's mtime; if the file is absent and `!skipOnFail`, set it to `FLT_MAX`. -/
def Command.UpdateInputTime (c : Command) (fs : FS) (file : String) (skipOnFail : Bool) : Command :=
  match fs file with
  | some f => ⟨c.text, c.path, max c.latestInput f.mtime, c.earliestOutput⟩
  | none => if skipOnFail then c else ⟨c.text, c.path, fltMax, c.earliestOutput⟩

/-- `Command::UpdateOutputTime(file, skipOnFail)`: lower `earliestOutput` to the
file's mtime; if the file is absent and `!skipOnFail`, set it to `0.f`. -/
def Command.UpdateOutputTime (c : Command) (fs : FS) (file : String) (skipOnFail : Bool) : Command :=
  match fs file with
  | some f => ⟨c.text, c.path, c.latestInput, min c.earliestOutput f.mtime⟩
  | none => if skipOnFail then c else ⟨c.text, c.path, c.latestInput, 0⟩

/-- The text rule of `operator+(Command, std::string)`: a separating space is
inserted unless the accumulated text is empty. -/
def appT (s t : String) : String :=
  if s = "" then t else s ++ " " ++ t

/-- `operator+(Command a, std::string b)`: non-joined append; `path` and both
staleness scalars are preserved. -/
def Command.addStr (a : Command) (b : String) : Command :=
  ⟨appT a.text b, a.path, a.latestInput, a.earliestOutput⟩

/-- `operator-(Command a, std::string b)`: joined append (no separating space). -/
def Command.joinStr (a : Command) (b : String) : Command :=
  ⟨if a.text = "" then b else a.text ++ b, a.path, a.latestInput, a.earliestOutput⟩

/-- The quoting applied by the path overloads: `"\"" + b.string() + "\""`. -/
def quoteStr (p : String) : String := "\"" ++ p ++ "\""

/-- `operator+(Command a, std::filesystem::path b)`. -/
def Command.addPath (a : Command) (p : String) : Command :=
  a.addStr (quoteStr p)

/-- `operator-(Command a, std::filesystem::path b)`. -/
def Command.joinPath (a : Command) (p : String) : Command :=
  a.joinStr (quoteStr p)

/-- `operator+(Command a, Command b)`: `a + std::string("&&") + b.text`. -/
def Command.addCmd (a b : Command) : Command :=
  (a.addStr "&&").addStr b.text

/-- `operator-(Command a, Command b)`: `a + b.text`. -/
def Command.subCmd (a b : Command) : Command :=
  a.addStr b.text

/-- The user-visible events of one `Command::Run` call that the claims are
about (the "skipped" report and the echo of a spawned command). -/
inductive LogEvent
  | skipped
  | ran (text : String)
deriving DecidableEq, Repr

/-- Result of `Command::Run`: exit code, whether a child process was spawned,
and the reported events. -/
structure RunResult where
  exitCode : Int
  spawned : Bool
  events : List LogEvent
deriving DecidableEq, Repr

/-- `Command::Run(suppressOutput, plainErrors)`.  `clean` is the global
`CLFlags[CLArgument::Clean]` bit; `system` gives the exit status that
`std::system` returns for the spawned text.  The stdout-suppression and
stderr-capture plumbing does not affect the skip decision, the spawn or the
exit code and is elided. -/
def Command.run (c : Command) (clean : Bool) (system : String → Int) : RunResult :=
  if clean = false ∧ c.earliestOutput ≠ fltMax ∧ c.latestInput < c.earliestOutput then
    { exitCode := 0, spawned := false, events := [LogEvent.skipped] }
  else
    { exitCode := system c.text, spawned := true, events := [LogEvent.ran c.text] }

/-- One input/output declaration (`UpdateInputTime` / `UpdateOutputTime` call). -/
inductive Decl
  | input (file : String) (skipOnFail : Bool)
  | output (file : String) (skipOnFail : Bool)
deriving DecidableEq, Repr

/-- Apply one declaration to a command. -/
def Command.applyDecl (fs : FS) (c : Command) : Decl → Command
  | Decl.input f sk => c.UpdateInputTime fs f sk
  | Decl.output f sk => c.UpdateOutputTime fs f sk

/-- Apply a sequence of declarations left to right. -/
def Command.applyDecls (fs : FS) (c : Command) (ds : List Decl) : Command :=
  ds.foldl (Command.applyDecl fs) c

/-! ### Paths

Minimal model of the `std::filesystem::path` operations the claims need,
over `/`-separated path strings (ASCII, one byte per character). -/

/-- Split a character list at every occurrence of a separator character
(the result is always nonempty, like `String.splitOn`). -/
def splitOnChar (sep : Char) : List Char → List (List Char)
  | [] => [[]]
  | c :: rest =>
    if c = sep then [] :: splitOnChar sep rest
    else
      match splitOnChar sep rest with
      | [] => [[c]]
      | h :: t => (c :: h) :: t

/-- Join character-list segments with a separator character. -/
def joinChar (sep : Char) : List (List Char) → List Char
  | [] => []
  | [x] => x
  | x :: y :: t => x ++ sep :: joinChar sep (y :: t)

/-- `path::parent_path()`: everything before the last separator. -/
def parentPath (p : String) : String :=
  String.mk (joinChar '/' (splitOnChar '/' p.toList).dropLast)

/-- `path::filename()`: everything after the last separator. -/
def fileName (p : String) : String :=
  String.mk ((splitOnChar '/' p.toList).getLastD p.toList)

/-- `operator/` on paths (for nonempty right operands as used here). -/
def pathJoin (dir name : String) : String :=
  if dir = "" then name else dir ++ "/" ++ name

/-- Index of the last occurrence of a character. -/
def lastIdxOf (c : Char) : List Char → Option Nat
  | [] => none
  | a :: rest =>
    match lastIdxOf c rest with
    | some i => some (i + 1)
    | none => if a = c then some 0 else none

/-- `path::extension().string()`: the substring of the filename from its last
period (period included); empty when the filename is `.` or `..`, has no
period, or its only period is the leading one. -/
def pathExtension (p : String) : String :=
  let f := (splitOnChar '/' p.toList).getLastD p.toList
  if f = ['.'] ∨ f = ['.', '.'] then ""
  else
    match lastIdxOf '.' f with
    | none => ""
    | some 0 => ""
    | some i => String.mk (f.drop i)

/-- `path::replace_extension(e)`: drop the current extension, then append `e`
with a period prepended when `e` does not already start with one. -/
def replaceExtension (p e : String) : String :=
  let base := p.toList.take (p.toList.length - (pathExtension p).toList.length)
  let suffix :=
    if e = "" then []
    else if e.toList.head? = some '.' then e.toList
    else '.' :: e.toList
  String.mk (base ++ suffix)

/-! ### Backends and hosts -/

/-- The toolchain family selected by the compiler-detection preprocessor
(`__nob_msvc__` / `__nob_gcc__` / `__nob_clang__`, or none of them). -/
inductive Backend
  | msvc | gcc | clang | unknown
deriving DecidableEq, Repr

/-- The host platform distinctions the library-file operators test
(`_WIN32`, `__APPLE__`, otherwise). -/
inductive Host
  | windows | apple | other
deriving DecidableEq, Repr

/-- The static-library extension passed to `replace_extension` per host. -/
def staticLibExtension : Host → String
  | Host.windows => "lib"
  | _ => "a"

/-- The dynamic-library extension passed to `replace_extension` per host. -/
def dynamicLibExtension : Host → String
  | Host.windows => "dll"
  | Host.apple => "dylib"
  | Host.other => "so"

/-- `operator+(LinkCommand, StaticLibraryFile)`: tolerant input-time update,
then the extension test copied verbatim from the source (the source compares
`extension().string()`, which includes the leading period, against the bare
strings `"a"` and `"lib"`), then the quoted path is appended (identically on
every backend). -/
def addStaticLibraryFile (host : Host) (fs : FS) (a : Command) (p : String) : Command :=
  let a1 := a.UpdateInputTime fs p true
  let p1 :=
    if pathExtension p = "a" ∨ pathExtension p = "lib" then
      replaceExtension p (staticLibExtension host)
    else p
  a1.addPath p1

/-- `operator+(LinkCommand, DynamicLibraryFile)`: rewrite the extension to the
host dynamic-library extension, then delegate to the static-library operator. -/
def addDynamicLibraryFile (host : Host) (fs : FS) (a : Command) (p : String) : Command :=
  addStaticLibraryFile host fs a (replaceExtension p (dynamicLibExtension host))

/-- `enum class CompilerFlag`. -/
inductive CompilerFlag
  | optimizeSpeed | optimizeSpace | keepLinker | debug | positionIndependentCode
  | cppVersion14 | cppVersion17 | cppVersion20 | noObjectFile
deriving DecidableEq, Repr

/-- `enum class LinkerFlag`. -/
inductive LinkerFlag
  | outputDynamicLibrary | debug
deriving DecidableEq, Repr

/-- Boolean list-prefix test (for modelling `std::string::find`). -/
def isPrefixList : List Char → List Char → Bool
  | [], _ => true
  | _ :: _, [] => false
  | a :: as, b :: bs => a = b && isPrefixList as bs

/-- First index at which `pat` occurs (`std::string::find`; `none` is `npos`). -/
def findIdxSub (pat : List Char) : List Char → Option Nat
  | [] => if pat = [] then some 0 else none
  | a :: rest =>
    if isPrefixList pat (a :: rest) then some 0
    else (findIdxSub pat rest).map (fun n => n + 1)

/-- `operator+(CompileCommand, ObjectFile)`: output-time update, then the
backend-specific object-file argument (`-Fo<path>` joined on MSVC, `-o <path>`
elsewhere, including the unknown-compiler fallback). -/
def addObjectFile (backend : Backend) (fs : FS) (a : Command) (p : String) : Command :=
  let a1 := a.UpdateOutputTime fs p false
  match backend with
  | Backend.msvc => (a1.addStr "-Fo").joinPath p
  | _ => (a1.addStr "-o").addPath p

/-- The `default:` report of `operator+(CompileCommand, CompilerFlag)`. -/
def unsupportedCompilerFlagMsg : String :=
  "CompilerFlag is not supported by your compiler.\n"

/-- The `default:` report of `operator+(LinkCommand, LinkerFlag)`. -/
def unsupportedLinkerFlagMsg : String :=
  "LinkerFlag is not supported by your compiler.\n"

/-- `operator+(CompileCommand, CompilerFlag)` (no custom handler macro).
Returns the command plus the list of messages logged; `KeepLinker` and
`NoObjectFile` perform the source's string surgery on the accumulated text
(`NoObjectFile` throws `std::out_of_range` when the text has no space, since
`substr(npos)` is called; that is the `.error` case).  `win32` is `_WIN32`;
`tmpDir` is `std::filesystem::temp_directory_path()`. -/
def addCompilerFlag (backend : Backend) (win32 : Bool) (fs : FS) (tmpDir : String)
    (a : Command) (f : CompilerFlag) : Except String (Command × List String) :=
  match backend, f with
  | Backend.msvc, CompilerFlag.optimizeSpeed => Except.ok (a.addStr "-O2", [])
  | Backend.msvc, CompilerFlag.optimizeSpace => Except.ok (a.addStr "-O1", [])
  | Backend.msvc, CompilerFlag.debug => Except.ok (a.addStr "-Zi", [])
  | Backend.msvc, CompilerFlag.cppVersion14 => Except.ok (a.addStr "-std:c++14", [])
  | Backend.msvc, CompilerFlag.cppVersion17 => Except.ok (a.addStr "-std:c++17", [])
  | Backend.msvc, CompilerFlag.cppVersion20 => Except.ok (a.addStr "-std:c++20", [])
  | Backend.gcc, CompilerFlag.optimizeSpeed => Except.ok (a.addStr "-O2", [])
  | Backend.gcc, CompilerFlag.optimizeSpace => Except.ok (a.addStr "-Os", [])
  | Backend.gcc, CompilerFlag.debug => Except.ok (a.addStr "-g", [])
  | Backend.gcc, CompilerFlag.cppVersion14 => Except.ok (a.addStr "-std=c++14", [])
  | Backend.gcc, CompilerFlag.cppVersion17 => Except.ok (a.addStr "-std=c++17", [])
  | Backend.gcc, CompilerFlag.cppVersion20 => Except.ok (a.addStr "-std=c++20", [])
  | Backend.clang, CompilerFlag.optimizeSpeed => Except.ok (a.addStr "-O2", [])
  | Backend.clang, CompilerFlag.optimizeSpace => Except.ok (a.addStr "-Os", [])
  | Backend.clang, CompilerFlag.debug => Except.ok (a.addStr "-g", [])
  | Backend.clang, CompilerFlag.cppVersion14 => Except.ok (a.addStr "-std=c++14", [])
  | Backend.clang, CompilerFlag.cppVersion17 => Except.ok (a.addStr "-std=c++17", [])
  | Backend.clang, CompilerFlag.cppVersion20 => Except.ok (a.addStr "-std=c++20", [])
  | _, CompilerFlag.positionIndependentCode =>
    if win32 then Except.ok (a, [])
    else Except.ok (a.addStr "-fPIC", [])
  | _, CompilerFlag.keepLinker =>
    match findIdxSub " -c".toList a.text.toList with
    | none => Except.ok (a, [])
    | some loc =>
      Except.ok (⟨String.mk (a.text.toList.take loc ++ a.text.toList.drop (loc + 3)),
        a.path, a.latestInput, a.earliestOutput⟩, [])
  | _, CompilerFlag.noObjectFile =>
    match findIdxSub " ".toList a.text.toList with
    | none => Except.error "out_of_range"
    | some loc =>
      let tmp := String.mk (a.text.toList.drop loc)
      let a1 : Command := ⟨String.mk (a.text.toList.take loc), a.path, a.latestInput, a.earliestOutput⟩
      let a2 := addObjectFile backend fs a1 (pathJoin tmpDir "nobDeletedObj.o")
      Except.ok (⟨a2.text ++ tmp, a2.path, a2.latestInput, a2.earliestOutput⟩, [])
  | Backend.unknown, _ => Except.ok (a, [unsupportedCompilerFlagMsg])

/-- `operator+(LinkCommand, LinkerFlag)` (no custom handler macro). -/
def addLinkerFlag (backend : Backend) (a : Command) (f : LinkerFlag) : Command × List String :=
  match backend, f with
  | Backend.msvc, LinkerFlag.outputDynamicLibrary => (a.addStr "-dll", [])
  | Backend.msvc, LinkerFlag.debug => (a.addStr "-debug", [])
  | Backend.gcc, LinkerFlag.outputDynamicLibrary => (a.addStr "-shared", [])
  | Backend.gcc, LinkerFlag.debug => (a.addStr "-g", [])
  | Backend.clang, LinkerFlag.outputDynamicLibrary => (a.addStr "-shared", [])
  | Backend.clang, LinkerFlag.debug => (a.addStr "-g", [])
  | Backend.unknown, _ => (a, [unsupportedLinkerFlagMsg])

/-- Which compiler flags have a mapping (a non-`default:` switch arm) under each
backend: every flag is handled except the six value flags under the
unknown-compiler fallback. -/
def compilerFlagSupported (backend : Backend) (f : CompilerFlag) : Bool :=
  match backend, f with
  | Backend.unknown, CompilerFlag.optimizeSpeed => false
  | Backend.unknown, CompilerFlag.optimizeSpace => false
  | Backend.unknown, CompilerFlag.debug => false
  | Backend.unknown, CompilerFlag.cppVersion14 => false
  | Backend.unknown, CompilerFlag.cppVersion17 => false
  | Backend.unknown, CompilerFlag.cppVersion20 => false
  | _, _ => true

/-- Which linker flags have a mapping under each backend. -/
def linkerFlagSupported (backend : Backend) (_f : LinkerFlag) : Bool :=
  match backend with
  | Backend.unknown => false
  | _ => true

/-! ### Bootstrap (`ConsumeFlags`, `Init::Init`) -/

/-- The recognized command-line switch bits (`std::bitset<CLArgument::Count>`). -/
structure CLState where
  noRebuild : Bool
  noInitScript : Bool
  debug : Bool
  silent : Bool
  clean : Bool
deriving DecidableEq, Repr

/-- All bits cleared (`CLFlags.reset()`). -/
def CLState.initial : CLState := ⟨false, false, false, false, false⟩

/-- One iteration of the `ConsumeFlags` loop: recognized switches set a bit,
everything else is pushed onto `OtherCLArguments`. -/
def consumeFlagsStep (s : CLState × List String) (arg : String) : CLState × List String :=
  if arg = "-norebuild" then (⟨true, s.1.noInitScript, s.1.debug, s.1.silent, s.1.clean⟩, s.2)
  else if arg = "-noinitscript" then (⟨s.1.noRebuild, true, s.1.debug, s.1.silent, s.1.clean⟩, s.2)
  else if arg = "-debug" then (⟨s.1.noRebuild, s.1.noInitScript, true, s.1.silent, s.1.clean⟩, s.2)
  else if arg = "-silent" then (⟨s.1.noRebuild, s.1.noInitScript, s.1.debug, true, s.1.clean⟩, s.2)
  else if arg = "-clean" then (⟨s.1.noRebuild, s.1.noInitScript, s.1.debug, s.1.silent, true⟩, s.2)
  else (s.1, s.2 ++ [arg])

/-- `ConsumeFlags(argc, argv)`: processes `argv[1..]` (`argv[0]` is the program
name) starting from cleared flags and an empty passthrough list. -/
def consumeFlags (argv : List String) : CLState × List String :=
  (argv.drop 1).foldl consumeFlagsStep (CLState.initial, [])

/-- Which branch of the bootstrap an invocation takes. -/
inductive InitBranch
  | fresh | rebuilt
deriving DecidableEq, Repr

/-- The externally visible filesystem/process operations of `Init::Init`, in
program order.  `rebuild src bin` stands for running the synthesized
compile-and-link command that rebuilds `src` at the original binary path
`bin`; `relaunch argv` stands for running the freshly built binary with the
given argument list and then `std::exit(0)`. -/
inductive FSOp
  | removeFile (p : String)
  | renameFile (src dst : String)
  | rebuild (src bin : String)
  | relaunch (argv : List String)
deriving DecidableEq, Repr

/-- Outcome of one bootstrap pass: the branch taken, the filesystem after the
operations `Init` itself performs (the rebuild's output file is produced by the
spawned compiler and is represented by the `rebuild` op instead), the operation
trace, and the synthesized relaunch argument list when one exists. -/
structure InitResult where
  branch : InitBranch
  fs : FS
  ops : List FSOp
  relaunchList : Option (List String)

/-- The relaunch argument list synthesized on the stale path: the source builds
`Command() + binPath + "-norebuild"` and then `AddArgs` appends `argv[1..]`,
each argument quoted into the text; the shell strips those quotes again, so the
relaunched process receives `binPath :: "-norebuild" :: argv[1..]`. -/
def relaunchArgv : List String → List String
  | [] => []
  | binPath :: rest => binPath :: "-norebuild" :: rest

/-- One pass of `Init::Init(argc, argv, srcName)` with `NOBPP_INIT_SCRIPT` not
defined: consume flags, locate the driving source and the `.old` backup next to
the binary, delete a pre-existing backup, and when the binary is older than the
source rename it to the backup name, rebuild the source at the original binary
path and relaunch.  `last_write_time` on a missing binary path throws in C++;
the running binary always exists, which the theorems assume as a hypothesis,
so that match arm is given the fresh branch as a dummy value. -/
def initStep (fs : FS) (argv : List String) (srcName : String) : InitResult :=
  match argv with
  | [] => { branch := InitBranch.fresh, fs := fs, ops := [], relaunchList := none }
  | binPath :: rest =>
    let flags := (consumeFlags (binPath :: rest)).1
    let srcPath := pathJoin (parentPath binPath) srcName
    let oldBinPath := pathJoin (parentPath binPath) (fileName binPath ++ ".old")
    if flags.noRebuild = false ∧ (fs srcPath).isSome then
      let deleted := (fs oldBinPath).isSome
      let fs1 := if deleted then fs.removeFile oldBinPath else fs
      let ops1 : List FSOp := if deleted then [FSOp.removeFile oldBinPath] else []
      match fs1 binPath, fs1 srcPath with
      | some bin, some src =>
        if bin.mtime < src.mtime then
          { branch := InitBranch.rebuilt
            fs := fs1.renameFile binPath oldBinPath
            ops := ops1 ++ [FSOp.renameFile binPath oldBinPath,
              FSOp.rebuild srcPath binPath, FSOp.relaunch (relaunchArgv (binPath :: rest))]
            relaunchList := some (relaunchArgv (binPath :: rest)) }
        else
          { branch := InitBranch.fresh, fs := fs1, ops := ops1, relaunchList := none }
      | _, _ =>
        { branch := InitBranch.fresh, fs := fs1, ops := ops1, relaunchList := none }
    else
      { branch := InitBranch.fresh, fs := fs, ops := [], relaunchList := none }

/-! ### Escapes (`AddEscapes` / `RemoveEscapes`) -/

/-- The characters the escape functions treat specially, by code point. -/
def backslashChar : Char := Char.ofNat 92

/-- `'\''`. -/
def apostropheChar : Char := Char.ofNat 39

/-- `'"'`. -/
def quoteChar : Char := Char.ofNat 34

/-- `'?'`. -/
def questionChar : Char := Char.ofNat 63

/-- `'\a'` (bell). -/
def bellChar : Char := Char.ofNat 7

/-- `'\b'` (backspace). -/
def backspaceChar : Char := Char.ofNat 8

/-- `'\f'` (form feed). -/
def formfeedChar : Char := Char.ofNat 12

/-- `'\n'` (newline). -/
def newlineChar : Char := Char.ofNat 10

/-- `'\r'` (carriage return). -/
def carriageReturnChar : Char := Char.ofNat 13

/-- `'\t'` (horizontal tab). -/
def tabChar : Char := Char.ofNat 9

/-- `'\v'` (vertical tab). -/
def verticalTabChar : Char := Char.ofNat 11

/-- The switch of `AddEscapes` for one character. -/
def addEscapesChar (c : Char) : List Char :=
  if c = apostropheChar then [backslashChar, apostropheChar]
  else if c = quoteChar then [backslashChar, quoteChar]
  else if c = questionChar then [backslashChar, questionChar]
  else if c = backslashChar then [backslashChar, backslashChar]
  else if c = bellChar then [backslashChar, 'a']
  else if c = backspaceChar then [backslashChar, 'b']
  else if c = formfeedChar then [backslashChar, 'f']
  else if c = newlineChar then [backslashChar, 'n']
  else if c = carriageReturnChar then [backslashChar, 'r']
  else if c = tabChar then [backslashChar, 't']
  else if c = verticalTabChar then [backslashChar, 'v']
  else [c]

/-- `AddEscapes`, character list form. -/
def addEscapesList : List Char → List Char
  | [] => []
  | c :: rest => addEscapesChar c ++ addEscapesList rest

/-- `std::string AddEscapes(std::string)`. -/
def AddEscapes (s : String) : String := String.mk (addEscapesList s.toList)

/-- The switch of `RemoveEscapes` on the character after a backslash.  The
source writes its case labels as escape sequences (`case '\a': ret += "a"`),
so it matches the escaped *character* itself — not the letter — and the
`default:` arm (which logs "unrecognized escape code" and emits nothing)
catches the letters that `AddEscapes` actually produces. -/
def removeEscapesMatch (d : Char) : List Char :=
  if d = apostropheChar then [apostropheChar]
  else if d = quoteChar then [quoteChar]
  else if d = questionChar then [questionChar]
  else if d = backslashChar then [backslashChar]
  else if d = bellChar then ['a']
  else if d = backspaceChar then ['b']
  else if d = formfeedChar then ['f']
  else if d = newlineChar then ['n']
  else if d = carriageReturnChar then ['r']
  else if d = tabChar then ['t']
  else if d = verticalTabChar then ['v']
  else []

/-- `RemoveEscapes`, character list form.  A trailing backslash makes the
source read the terminating NUL (hitting the `default:` arm) and stop. -/
def removeEscapesList : List Char → List Char
  | [] => []
  | [c] => if c = backslashChar then [] else [c]
  | c :: d :: rest =>
    if c = backslashChar then removeEscapesMatch d ++ removeEscapesList rest
    else c :: removeEscapesList (d :: rest)

/-- `std::string RemoveEscapes(std::string)`. -/
def RemoveEscapes (s : String) : String := String.mk (removeEscapesList s.toList)

/-! ### `CompileDirectory` source filter -/

/-- The value of the size_t expression `p.string().size() - 4` on a 64-bit
host: subtraction wraps modulo `2 ^ 64`. -/
def srcFilterPos (len : Nat) : Nat := (len + 2 ^ 64 - 4) % 2 ^ 64

/-- The `CompileDirectory` source filter
`p.string().substr(p.string().size() - 4) == ".cpp"`:
`substr(pos)` throws `std::out_of_range` when `pos` exceeds the length. -/
def cppSourceFilter (s : String) : Except String Bool :=
  let pos := srcFilterPos s.length
  if s.length < pos then Except.error "out_of_range"
  else Except.ok (decide (String.mk (s.toList.drop pos) = ".cpp"))

/-! ### Concrete fixtures used by the closed instantiations -/

/-- An empty filesystem. -/
def fsNone : FS := fun _ => none

/-- A filesystem holding exactly one source file. -/
def fsMain : FS := fun p => if p = "main.cpp" then some ⟨100, 0⟩ else none

/-- A stale bootstrap scenario: the binary `d/nob` (mtime 100) is older than
its driving source `d/nob.cpp` (mtime 200), and a backup `d/nob.old` with
distinct content (tag 7) already exists. -/
def fsBoot : FS := fun p =>
  if p = "d/nob" then some ⟨100, 1⟩
  else if p = "d/nob.cpp" then some ⟨200, 2⟩
  else if p = "d/nob.old" then some ⟨50, 7⟩
  else none

/-- A sample declaration sequence: an existing input, a missing output
declared strictly, and a missing input declared tolerantly. -/
def dsSample : List Decl :=
  [Decl.input "main.cpp" false, Decl.output "main.o" false, Decl.input "gone.h" true]

end Nobpp

namespace Nobpp

/-! ## Helper lemmas -/

/-- One `ConsumeFlags` iteration never clears an already-set `NoRebuild` bit. -/
theorem consumeFlagsStep_noRebuild_mono (st : CLState × List String) (arg : String)
    (h : st.1.noRebuild = true) : ((consumeFlagsStep st arg).1).noRebuild = true := by
  unfold consumeFlagsStep
  split_ifs <;> simp_all

/-- The `ConsumeFlags` fold never clears an already-set `NoRebuild` bit. -/
theorem foldl_consumeFlags_noRebuild (args : List String) (st : CLState × List String)
    (h : st.1.noRebuild = true) : ((args.foldl consumeFlagsStep st).1).noRebuild = true := by
  induction args generalizing st with
  | nil => exact h
  | cons a rest ih =>
    simp only [List.foldl_cons]
    exact ih _ (consumeFlagsStep_noRebuild_mono st a h)

/-- Consuming an argument list whose first real argument is `-norebuild`
sets the `NoRebuild` bit. -/
theorem consumeFlags_relaunch_noRebuild (binPath : String) (rest : List String) :
    ((consumeFlags (binPath :: "-norebuild" :: rest)).1).noRebuild = true := by
  unfold consumeFlags
  simp only [List.drop_succ_cons, List.drop_zero, List.foldl_cons]
  exact foldl_consumeFlags_noRebuild rest _ (by rfl)

/-- With the `NoRebuild` bit set, `Init` skips the whole rebuild block: fresh
branch, no filesystem operations, no relaunch. -/
theorem initStep_noRebuild (fs : FS) (binPath srcName : String) (rest : List String)
    (h : ((consumeFlags (binPath :: rest)).1).noRebuild = true) :
    initStep fs (binPath :: rest) srcName =
      { branch := InitBranch.fresh, fs := fs, ops := [], relaunchList := none } := by
  simp only [initStep]
  rw [if_neg]
  rintro ⟨h1, -⟩
  rw [h] at h1
  cases h1

/-- Whenever a bootstrap pass synthesizes a relaunch argument list, that list
is the original binary path, then `-norebuild`, then `argv[1..]`. -/
theorem initStep_relaunchList_eq (fs : FS) (binPath srcName : String) (rest ra : List String)
    (h : (initStep fs (binPath :: rest) srcName).relaunchList = some ra) :
    ra = binPath :: "-norebuild" :: rest := by
  simp only [initStep] at h
  split at h
  · split at h
    · split at h
      · injection h with h2
        rw [show relaunchArgv (binPath :: rest) = binPath :: "-norebuild" :: rest from rfl] at h2
        exact h2.symm
      · cases h
    · cases h
  · cases h

/-- `appT` never returns the empty string when the appended token is nonempty. -/
theorem appT_ne_empty (s t : String) (ht : t ≠ "") : appT s t ≠ "" := by
  unfold appT
  split
  · exact ht
  · intro hc
    have hl := congrArg String.length hc
    rw [String.length_append, String.length_append] at hl
    have h1 : String.length " " = 1 := rfl
    have h0 : String.length "" = 0 := rfl
    omega

/-- Appending to an empty text yields the token itself. -/
theorem appT_empty_left (t : String) : appT "" t = t := by
  rw [appT, if_pos rfl]

/-- `appT` reassociates when the middle token is nonempty. -/
theorem appT_assoc (s x y : String) (hx : x ≠ "") :
    appT (appT s x) y = appT s (appT x y) := by
  by_cases hs : s = ""
  · subst hs
    rw [appT_empty_left, appT_empty_left]
  · have h1 : appT s x = s ++ " " ++ x := by rw [appT, if_neg hs]
    have h2 : appT x y = x ++ " " ++ y := by rw [appT, if_neg hx]
    have hsx : s ++ " " ++ x ≠ "" := h1 ▸ appT_ne_empty s x hx
    rw [h1, h2, appT, if_neg hsx, appT, if_neg hs]
    simp [String.append_assoc]

/-- One declaration raises `latestInput` at most to `fltMax`, lowers
`earliestOutput` at least to `0`, and preserves both bounds (well-formed
filesystem, bounds on the incoming command). -/
theorem applyDecl_bounds (fs : FS) (hfs : fs.WF) (c : Command) (d : Decl)
    (hin : c.latestInput ≤ fltMax) (hout : 0 ≤ c.earliestOutput) :
    c.latestInput ≤ (c.applyDecl fs d).latestInput ∧
    (c.applyDecl fs d).earliestOutput ≤ c.earliestOutput ∧
    (c.applyDecl fs d).latestInput ≤ fltMax ∧
    0 ≤ (c.applyDecl fs d).earliestOutput := by
  cases d with
  | input f sk =>
    simp only [Command.applyDecl, Command.UpdateInputTime]
    cases h : fs f with
    | some fl =>
      exact ⟨le_max_left _ _, le_refl _, max_le hin (hfs f fl h).2, hout⟩
    | none =>
      cases sk
      · simp only [Bool.false_eq_true, if_false]
        exact ⟨hin, le_refl _, le_refl _, hout⟩
      · simp only [if_true]
        exact ⟨le_refl _, le_refl _, hin, hout⟩
  | output f sk =>
    simp only [Command.applyDecl, Command.UpdateOutputTime]
    cases h : fs f with
    | some fl =>
      exact ⟨le_refl _, min_le_left _ _, hin, le_min hout (hfs f fl h).1⟩
    | none =>
      cases sk
      · simp only [Bool.false_eq_true, if_false]
        exact ⟨le_refl _, hout, hin, le_refl _⟩
      · simp only [if_true]
        exact ⟨le_refl _, le_refl _, hin, hout⟩

/-- The one-file fixture is well formed. -/
theorem fsMain_wf : FS.WF fsMain := by
  intro p f h
  unfold fsMain at h
  split at h
  · cases h
    exact ⟨by decide, by decide⟩
  · cases h

/-! ## Claim theorems -/

/-- Claim C1: if clean mode is not set, `earliestOutput` is finite (not the
`FLT_MAX` sentinel) and `latestInput < earliestOutput`, then `Command::Run`
spawns no child process, reports a skipped event and returns exit code 0;
otherwise (e.g. `latestInput` 300 against `earliestOutput` 200) it spawns the
child and returns its exit status. -/
theorem run_skips_up_to_date (c d : Command) (system : String → Int)
    (hfin : c.earliestOutput ≠ fltMax) (hlt : c.latestInput < c.earliestOutput)
    (hd1 : d.latestInput = 300) (hd2 : d.earliestOutput = 200) :
    c.run false system = { exitCode := 0, spawned := false, events := [LogEvent.skipped] } ∧
    (d.run false system).spawned = true ∧
    (d.run false system).exitCode = system d.text := by
  have hd : ¬ (false = false ∧ d.earliestOutput ≠ fltMax ∧ d.latestInput < d.earliestOutput) := by
    rintro ⟨-, -, hc⟩
    rw [hd1, hd2] at hc
    norm_num at hc
  refine ⟨?_, ?_, ?_⟩
  · rw [Command.run, if_pos ⟨rfl, hfin, hlt⟩]
  · rw [Command.run, if_neg hd]
  · rw [Command.run, if_neg hd]

/-- Witness for C1 at `latestInput = 100 / 300`, `earliestOutput = 200`. -/
theorem run_skips_up_to_date_witness :
    (Command.mk "gcc main.cpp" "" 100 200).run false (fun _ => 7) =
      { exitCode := 0, spawned := false, events := [LogEvent.skipped] } ∧
    ((Command.mk "gcc main.cpp" "" 300 200).run false (fun _ => 7)).spawned = true :=
  have h := run_skips_up_to_date (Command.mk "gcc main.cpp" "" 100 200)
    (Command.mk "gcc main.cpp" "" 300 200) (fun _ => 7) (by decide) (by decide) rfl rfl
  ⟨h.1, h.2.1⟩

/-- Claim C2: declaring a missing input (with `tolerateMissing = false`) sets
`latestInput` to the `FLT_MAX` sentinel and declaring a missing output sets
`earliestOutput` to 0; in either case the subsequent `Run` spawns the child
(is never skipped) regardless of the other scalar, for any command whose
scalars are in the range the program can construct (`latestInput ≥ 0`,
`earliestOutput ≤ FLT_MAX`). -/
theorem missing_file_forces_execution (fs : FS) (c : Command) (fIn fOut : String)
    (hin : 0 ≤ c.latestInput) (hout : c.earliestOutput ≤ fltMax)
    (hmissIn : fs fIn = none) (hmissOut : fs fOut = none) :
    (c.UpdateInputTime fs fIn false).latestInput = fltMax ∧
    (c.UpdateOutputTime fs fOut false).earliestOutput = 0 ∧
    (∀ (clean : Bool) (system : String → Int),
      ((c.UpdateInputTime fs fIn false).run clean system).spawned = true) ∧
    (∀ (clean : Bool) (system : String → Int),
      ((c.UpdateOutputTime fs fOut false).run clean system).spawned = true) := by
  have hI : c.UpdateInputTime fs fIn false = ⟨c.text, c.path, fltMax, c.earliestOutput⟩ := by
    rw [Command.UpdateInputTime, hmissIn]
    rfl
  have hO : c.UpdateOutputTime fs fOut false = ⟨c.text, c.path, c.latestInput, 0⟩ := by
    rw [Command.UpdateOutputTime, hmissOut]
    rfl
  refine ⟨by rw [hI], by rw [hO], ?_, ?_⟩
  · intro clean system
    rw [hI, Command.run, if_neg]
    rintro ⟨-, -, hc⟩
    exact absurd hc (not_lt.mpr hout)
  · intro clean system
    rw [hO, Command.run, if_neg]
    rintro ⟨-, -, hc⟩
    exact absurd hc (not_lt.mpr hin)

/-- Witness for C2 on a fresh command and an empty filesystem. -/
theorem missing_file_forces_execution_witness :
    ((Command.init "g++ x.cpp" "").UpdateInputTime fsNone "gone.h" false).latestInput = fltMax ∧
    ((Command.init "g++ x.cpp" "").UpdateOutputTime fsNone "gone.o" false).earliestOutput = 0 ∧
    (((Command.init "g++ x.cpp" "").UpdateInputTime fsNone "gone.h" false).run false
      (fun _ => 7)).spawned = true ∧
    (((Command.init "g++ x.cpp" "").UpdateOutputTime fsNone "gone.o" false).run false
      (fun _ => 7)).spawned = true :=
  have h := missing_file_forces_execution fsNone (Command.init "g++ x.cpp" "") "gone.h" "gone.o"
    (by decide) (by decide) rfl rfl
  ⟨h.1, h.2.1, h.2.2.1 false (fun _ => 7), h.2.2.2 false (fun _ => 7)⟩

/-- Claim C3: across any sequence of input/output declarations (in any order,
for existing or missing files) over a well-formed filesystem, `latestInput` is
non-decreasing and `earliestOutput` is non-increasing, and both stay inside
the float range the program maintains (`latestInput ≤ FLT_MAX`,
`earliestOutput ≥ 0`), so the statement applies at every step. -/
theorem staleness_monotone (fs : FS) (hfs : fs.WF) (ds : List Decl) (c : Command)
    (hin : c.latestInput ≤ fltMax) (hout : 0 ≤ c.earliestOutput) :
    c.latestInput ≤ (c.applyDecls fs ds).latestInput ∧
    (c.applyDecls fs ds).earliestOutput ≤ c.earliestOutput ∧
    (c.applyDecls fs ds).latestInput ≤ fltMax ∧
    0 ≤ (c.applyDecls fs ds).earliestOutput := by
  induction ds generalizing c with
  | nil => exact ⟨le_refl _, le_refl _, hin, hout⟩
  | cons d rest ih =>
    have hstep := applyDecl_bounds fs hfs c d hin hout
    have hrest := ih (c.applyDecl fs d) hstep.2.2.1 hstep.2.2.2
    simp only [Command.applyDecls, List.foldl_cons] at *
    exact ⟨le_trans hstep.1 hrest.1, le_trans hrest.2.1 hstep.2.1, hrest.2.2.1, hrest.2.2.2⟩

/-- Witness for C3 on a fresh command and a three-declaration sequence. -/
theorem staleness_monotone_witness :
    (Command.init "cc" "").latestInput ≤
      ((Command.init "cc" "").applyDecls fsMain dsSample).latestInput ∧
    ((Command.init "cc" "").applyDecls fsMain dsSample).earliestOutput ≤
      (Command.init "cc" "").earliestOutput ∧
    ((Command.init "cc" "").applyDecls fsMain dsSample).latestInput ≤ fltMax ∧
    0 ≤ ((Command.init "cc" "").applyDecls fsMain dsSample).earliestOutput :=
  staleness_monotone fsMain fsMain_wf dsSample (Command.init "cc" "") (by decide) (by decide)

/-- Claim C4: whenever a bootstrap pass is stale enough to synthesize a
relaunch argument list, that list carries `-norebuild` in addition to the
original arguments, and feeding it back into a fresh bootstrap pass takes the
`Fresh` branch (no filesystem operations, no second rebuild), whatever the
filesystem then looks like. -/
theorem bootstrap_single_fire (fs : FS) (binPath srcName : String) (rest ra : List String)
    (h : (initStep fs (binPath :: rest) srcName).relaunchList = some ra) :
    ra = binPath :: "-norebuild" :: rest ∧
    "-norebuild" ∈ ra ∧
    (∀ x ∈ rest, x ∈ ra) ∧
    ∀ fs2 : FS, (initStep fs2 ra srcName).branch = InitBranch.fresh ∧
      (initStep fs2 ra srcName).ops = [] := by
  have hra : ra = binPath :: "-norebuild" :: rest :=
    initStep_relaunchList_eq fs binPath srcName rest ra h
  subst hra
  refine ⟨rfl, ?_, ?_, ?_⟩
  · exact List.mem_cons_of_mem _ (List.mem_cons_self _ _)
  · intro x hx
    exact List.mem_cons_of_mem _ (List.mem_cons_of_mem _ hx)
  · intro fs2
    rw [initStep_noRebuild fs2 binPath srcName ("-norebuild" :: rest)
      (consumeFlags_relaunch_noRebuild binPath rest)]
    exact ⟨rfl, rfl⟩

/-- Witness for C4 on the stale fixture (`d/nob` older than `d/nob.cpp`). -/
theorem bootstrap_single_fire_witness :
    "-norebuild" ∈ ["d/nob", "-norebuild", "-v"] ∧
    (initStep fsBoot ["d/nob", "-norebuild", "-v"] "nob.cpp").branch = InitBranch.fresh :=
  have h := bootstrap_single_fire fsBoot "d/nob" "nob.cpp" ["-v"]
    ["d/nob", "-norebuild", "-v"] (by decide)
  ⟨h.2.1, (h.2.2.2 fsBoot).1⟩

/-- Claim C5 (counterexample): on the stale fixture, whose backup `d/nob.old`
holds content tag 7, the bootstrap *removes* that pre-existing backup (the op
trace is exactly remove, rename, rebuild, relaunch — no rotation), after which
the backup name holds the old binary (tag 1) and tag 7 is gone; the claim says
the pre-existing backup is recursively rotated rather than destroyed. -/
theorem bootstrap_backup_destroyed_cex :
    fsBoot "d/nob.old" = some ⟨50, 7⟩ ∧
    (initStep fsBoot ["d/nob"] "nob.cpp").branch = InitBranch.rebuilt ∧
    (initStep fsBoot ["d/nob"] "nob.cpp").ops =
      [FSOp.removeFile "d/nob.old", FSOp.renameFile "d/nob" "d/nob.old",
       FSOp.rebuild "d/nob.cpp" "d/nob", FSOp.relaunch ["d/nob", "-norebuild"]] ∧
    (initStep fsBoot ["d/nob"] "nob.cpp").fs "d/nob.old" = some ⟨100, 1⟩ ∧
    (initStep fsBoot ["d/nob"] "nob.cpp").fs "d/nob" = none ∧
    (initStep fsBoot ["d/nob"] "nob.cpp").fs "d/nob.cpp" = some ⟨200, 2⟩ := by
  refine ⟨rfl, ?_, ?_, ?_, ?_, ?_⟩ <;> decide

/-- Claim C5 (amended): on the stale path the bootstrap *deletes* any
pre-existing backup (it is not rotated), then renames the current binary to
the backup name, before the rebuild of the source at the original binary path
is attempted; afterwards the backup name holds the former binary and the
original binary path is empty until the rebuild recreates it. -/
theorem bootstrap_backup_deleted_then_renamed
    (fs : FS) (binPath srcName : String) (rest : List String) (bin src old : File)
    (hnr : ((consumeFlags (binPath :: rest)).1).noRebuild = false)
    (hsrc : fs (pathJoin (parentPath binPath) srcName) = some src)
    (hbin : fs binPath = some bin)
    (hold : fs (pathJoin (parentPath binPath) (fileName binPath ++ ".old")) = some old)
    (hne1 : binPath ≠ pathJoin (parentPath binPath) (fileName binPath ++ ".old"))
    (hne2 : pathJoin (parentPath binPath) srcName ≠
      pathJoin (parentPath binPath) (fileName binPath ++ ".old"))
    (hstale : bin.mtime < src.mtime) :
    (initStep fs (binPath :: rest) srcName).branch = InitBranch.rebuilt ∧
    (initStep fs (binPath :: rest) srcName).ops =
      [FSOp.removeFile (pathJoin (parentPath binPath) (fileName binPath ++ ".old")),
       FSOp.renameFile binPath (pathJoin (parentPath binPath) (fileName binPath ++ ".old")),
       FSOp.rebuild (pathJoin (parentPath binPath) srcName) binPath,
       FSOp.relaunch (binPath :: "-norebuild" :: rest)] ∧
    (initStep fs (binPath :: rest) srcName).fs
      (pathJoin (parentPath binPath) (fileName binPath ++ ".old")) = some bin ∧
    (initStep fs (binPath :: rest) srcName).fs binPath = none := by
  have hrm1 : (fs.removeFile (pathJoin (parentPath binPath) (fileName binPath ++ ".old")))
      binPath = some bin := by
    unfold FS.removeFile
    rw [if_neg hne1]
    exact hbin
  have hrm2 : (fs.removeFile (pathJoin (parentPath binPath) (fileName binPath ++ ".old")))
      (pathJoin (parentPath binPath) srcName) = some src := by
    unfold FS.removeFile
    rw [if_neg hne2]
    exact hsrc
  simp only [initStep, hnr, hsrc, hold, Option.isSome_some, if_pos, true_and, if_true,
    hrm1, hrm2, relaunchArgv]
  rw [if_pos hstale]
  refine ⟨rfl, rfl, ?_, ?_⟩
  · simp [FS.renameFile, hrm1]
  · simp [FS.renameFile, hne1]

/-- Witness for the amended C5 on the stale fixture. -/
theorem bootstrap_backup_deleted_then_renamed_witness :
    (initStep fsBoot ["d/nob", "-v"] "nob.cpp").branch = InitBranch.rebuilt ∧
    (initStep fsBoot ["d/nob", "-v"] "nob.cpp").ops =
      [FSOp.removeFile "d/nob.old", FSOp.renameFile "d/nob" "d/nob.old",
       FSOp.rebuild "d/nob.cpp" "d/nob", FSOp.relaunch ["d/nob", "-norebuild", "-v"]] ∧
    (initStep fsBoot ["d/nob", "-v"] "nob.cpp").fs "d/nob.old" = some ⟨100, 1⟩ ∧
    (initStep fsBoot ["d/nob", "-v"] "nob.cpp").fs "d/nob" = none :=
  bootstrap_backup_deleted_then_renamed fsBoot "d/nob" "nob.cpp" ["-v"]
    ⟨100, 1⟩ ⟨200, 2⟩ ⟨50, 7⟩ (by decide) (by decide) rfl (by decide)
    (by decide) (by decide) (by decide)

/-- Claim C6: the static-library operator's extension test compares
`path::extension()` — which always contains the leading period — against the
bare strings `"a"` and `"lib"`, so it never fires: a static library path with
the wrong-platform extension (`foo.lib` on a non-Windows host) is emitted
unchanged instead of being normalized to `foo.a`, although the intended
rewrite would produce `foo.a` and the dynamic-library path does normalize
(`bar.dll` becomes `bar.so`). -/
theorem static_library_extension_not_normalized :
    pathExtension "foo.lib" = ".lib" ∧
    (addStaticLibraryFile Host.other fsNone (Command.init "g++" "") "foo.lib").text =
      "g++ \"foo.lib\"" ∧
    replaceExtension "foo.lib" (staticLibExtension Host.other) = "foo.a" ∧
    (addDynamicLibraryFile Host.other fsNone (Command.init "g++" "") "bar.dll").text =
      "g++ \"bar.so\"" := by
  refine ⟨?_, ?_, ?_, ?_⟩ <;> decide

/-- Claim C7: a compiler or linker flag with no mapping in the active
backend's table is reported through the unsupported-flag message and the
command value is returned unmodified (its text untouched). -/
theorem unsupported_flag_reported_unmodified
    (backend : Backend) (win32 : Bool) (fs : FS) (tmpDir : String) (a : Command)
    (cf : CompilerFlag) (lf : LinkerFlag)
    (hc : compilerFlagSupported backend cf = false)
    (hl : linkerFlagSupported backend lf = false) :
    addCompilerFlag backend win32 fs tmpDir a cf = Except.ok (a, [unsupportedCompilerFlagMsg]) ∧
    addLinkerFlag backend a lf = (a, [unsupportedLinkerFlagMsg]) := by
  cases backend <;> cases cf <;> cases lf <;>
    simp_all [compilerFlagSupported, linkerFlagSupported, addCompilerFlag, addLinkerFlag]

/-- Witness for C7 on the unknown-compiler backend. -/
theorem unsupported_flag_reported_unmodified_witness :
    addCompilerFlag Backend.unknown false fsNone "/tmp" (Command.init "cc" "")
      CompilerFlag.optimizeSpeed = Except.ok (Command.init "cc" "", [unsupportedCompilerFlagMsg]) ∧
    addLinkerFlag Backend.unknown (Command.init "cc" "") LinkerFlag.debug =
      (Command.init "cc" "", [unsupportedLinkerFlagMsg]) :=
  unsupported_flag_reported_unmodified Backend.unknown false fsNone "/tmp"
    (Command.init "cc" "") CompilerFlag.optimizeSpeed LinkerFlag.debug rfl rfl

/-- Claim C8 (counterexample): with an empty token the separating-space rule is
not associative — appending `""` then `"c"` to a command with text `"a"` gives
`"a  c"` directly but `"a c"` when the two tokens are first combined in an
empty command and appended as one (`operator-(Command, Command)` grouping). -/
theorem append_grouping_cex :
    appT (appT "a" "") "c" ≠ appT "a" (appT "" "c") ∧
    (((Command.init "a" "").addStr "").addStr "c").text = "a  c" ∧
    ((Command.init "a" "").subCmd (((Command.init "" "").addStr "").addStr "c")).text = "a c" := by
  refine ⟨?_, ?_, ?_⟩ <;> decide

/-- Claim C8 (amended): for non-empty tokens `x`, `y`, `z` the non-joined
append yields the same text under every grouping, including materializing the
token run in a separate empty command and splicing it with
`operator-(Command, Command)`. -/
theorem append_assoc_nonempty_tokens (s x y z : String) (a : Command)
    (hx : x ≠ "") (hy : y ≠ "") (hz : z ≠ "") :
    appT (appT (appT s x) y) z = appT s (appT x (appT y z)) ∧
    appT (appT (appT s x) y) z = appT (appT s x) (appT y z) ∧
    appT (appT (appT s x) y) z = appT (appT s (appT x y)) z ∧
    appT (appT (appT s x) y) z = appT s (appT (appT x y) z) ∧
    ((a.addStr x).addStr y).addStr z =
      a.subCmd ((((Command.init "" a.path).addStr x).addStr y).addStr z) := by
  have h2 : appT (appT (appT s x) y) z = appT (appT s x) (appT y z) :=
    appT_assoc (appT s x) y z hy
  have h3 : appT (appT (appT s x) y) z = appT (appT s (appT x y)) z := by
    rw [appT_assoc s x y hx]
  have h4 : appT (appT (appT s x) y) z = appT s (appT (appT x y) z) := by
    rw [h3, appT_assoc s (appT x y) z (appT_ne_empty x y hy)]
  have h1 : appT (appT (appT s x) y) z = appT s (appT x (appT y z)) := by
    rw [h4, appT_assoc x y z hy]
  refine ⟨h1, h2, h3, h4, ?_⟩
  show (⟨appT (appT (appT a.text x) y) z, a.path, a.latestInput, a.earliestOutput⟩ : Command) = _
  rw [Command.subCmd]
  show _ = (⟨appT a.text (appT (appT (appT "" x) y) z), a.path, a.latestInput,
    a.earliestOutput⟩ : Command)
  rw [appT_empty_left]
  rw [appT_assoc a.text x y hx, appT_assoc a.text (appT x y) z (appT_ne_empty x y hy)]

/-- Witness for the amended C8 on three compiler tokens. -/
theorem append_assoc_nonempty_tokens_witness :
    appT (appT (appT "g++" "-c") "-O2") "x.cpp" =
      appT "g++" (appT "-c" (appT "-O2" "x.cpp")) ∧
    (((Command.init "g++" "").addStr "-c").addStr "-O2").addStr "x.cpp" =
      (Command.init "g++" "").subCmd
        ((((Command.init "" "").addStr "-c").addStr "-O2").addStr "x.cpp") :=
  have h := append_assoc_nonempty_tokens "g++" "-c" "-O2" "x.cpp" (Command.init "g++" "")
    (by decide) (by decide) (by decide)
  ⟨h.1, h.2.2.2.2⟩

/-- Claim C9: `RemoveEscapes` is not a left inverse of `AddEscapes` — the
source's switch cases are written with escape sequences, so they match the
control characters themselves instead of the letters `AddEscapes` emits:
`AddEscapes` turns a newline into backslash-`n`, but `RemoveEscapes` hits its
unrecognized-escape default on the letter `n` and drops it, returning `""`. -/
theorem escapes_roundtrip_fails_on_newline :
    AddEscapes (String.mk [newlineChar]) = String.mk [backslashChar, 'n'] ∧
    RemoveEscapes (String.mk [backslashChar, 'n']) = "" ∧
    RemoveEscapes (AddEscapes (String.mk [newlineChar])) ≠ String.mk [newlineChar] ∧
    RemoveEscapes (AddEscapes "say \"hi\"") = "say \"hi\"" := by
  refine ⟨?_, ?_, ?_, ?_⟩ <;> decide

/-- Claim C10: the `CompileDirectory` source filter evaluates
`substr(p.string().size() - 4)` without a guard, so for any path string of
fewer than four characters the size_t subtraction wraps to an index past the
end of the string and `substr` takes its out-of-range branch. -/
theorem compile_directory_filter_out_of_range (s : String) (h : s.length < 4) :
    s.length < srcFilterPos s.length ∧
    cppSourceFilter s = Except.error "out_of_range" := by
  have hpos : srcFilterPos s.length = 2 ^ 64 + s.length - 4 := by
    unfold srcFilterPos
    rw [Nat.mod_eq_of_lt (by omega)]
    omega
  have hlt : s.length < srcFilterPos s.length := by
    rw [hpos]
    omega
  refine ⟨hlt, ?_⟩
  unfold cppSourceFilter
  rw [if_pos hlt]

/-- Witness for C10 on the three-character path `a.c`. -/
theorem compile_directory_filter_out_of_range_witness :
    "a.c".length < srcFilterPos "a.c".length ∧
    cppSourceFilter "a.c" = Except.error "out_of_range" :=
  compile_directory_filter_out_of_range "a.c" (by decide)

end Nobpp
